import Mathlib

/-!
Verification of the youtube-ext backend (src/server.js) against its
natural-language specification.  The definitions below are a shallow
embedding of the relevant parts of `src/server.js`: the `/info` format
catalog builder, the `/download` transfer planner and remux settings,
the ffmpeg event handlers, and the rate limiter.  Definitions come first,
then the lemmas and theorems about them.
-/

/-- One entry of `info.formats` as consumed by server.js: the fields the
server reads from a ytdl-core format object.  `height` and `qualityLabel`
are optional (absent fields in the JSON); a `height` of `some 0` models the
JS-falsy numeric value 0. -/
structure Format where
  itag : Nat
  container : String
  hasVideo : Bool
  hasAudio : Bool
  height : Option Nat
  qualityLabel : Option String
  contentLength : Option Nat
  audioBitrate : Option Nat
deriving DecidableEq, Repr

/-- First maximal run of decimal digits in a character list, as matched by
the JS regex /\d+/ in `(f.qualityLabel || "").match(/\d+/)`. -/
def firstDigitRun : List Char → Option (List Char)
  | [] => none
  | c :: rest =>
    if c.isDigit then some (c :: rest.takeWhile Char.isDigit)
    else firstDigitRun rest

/-- Decimal value of a digit run, as produced by JS `parseInt` on the match. -/
def digitsToNat (ds : List Char) : Nat :=
  ds.foldl (fun acc c => acc * 10 + (c.toNat - 48)) 0

/-- Height parsed from the quality label:
`parseInt((f.qualityLabel || "").match(/\d+/)?.[0] || 0)` (server.js
line 137).  No digits anywhere gives 0. -/
def labelHeight (label : Option String) : Nat :=
  match firstDigitRun (label.getD "").toList with
  | some ds => digitsToNat ds
  | none => 0

/-- The height used for bucketing: `f.height || parseInt(...)` (server.js
lines 136-137).  JS `||` falls through on the falsy values undefined and 0. -/
def parsedHeight (f : Format) : Nat :=
  match f.height with
  | some h => if h = 0 then labelHeight f.qualityLabel else h
  | none => labelHeight f.qualityLabel

/-- The `picks` accumulator of the /info handler (server.js lines 126-132):
one optional slot per bucket, initially all null. -/
structure Picks where
  p1080 : Option Format
  p720 : Option Format
  p480 : Option Format
  p360 : Option Format
  audio : Option Format
deriving DecidableEq, Repr

def emptyPicks : Picks := ⟨none, none, none, none, none⟩

/-- The video-bucket if/else-if chain of the /info loop (server.js
lines 136-141), executed only when `f.hasVideo`. -/
def videoStep (p : Picks) (f : Format) : Picks :=
  let h := parsedHeight f
  if h ≥ 1080 && p.p1080.isNone then { p with p1080 := some f }
  else if h ≥ 720 && h < 1080 && p.p720.isNone then { p with p720 := some f }
  else if h ≥ 480 && h < 720 && p.p480.isNone then { p with p480 := some f }
  else if h ≥ 360 && h < 480 && p.p360.isNone then { p with p360 := some f }
  else p

/-- One iteration of the /info loop body (server.js lines 134-144). -/
def pickStep (p : Picks) (f : Format) : Picks :=
  let p' := if f.hasVideo then videoStep p f else p
  if f.hasAudio && !f.hasVideo && p'.audio.isNone then { p' with audio := some f }
  else p'

/-- The full bucket-filling loop `for (const f of info.formats) { ... }`. -/
def buildPicks (formats : List Format) : Picks :=
  formats.foldl pickStep emptyPicks

/-- The five bucket labels, in the fixed declaration order of the `picks`
object literal. -/
inductive Bucket where
  | b1080
  | b720
  | b480
  | b360
  | baudio
deriving DecidableEq, Repr

def getBucket (p : Picks) : Bucket → Option Format
  | .b1080 => p.p1080
  | .b720 => p.p720
  | .b480 => p.p480
  | .b360 => p.p360
  | .baudio => p.audio

/-- Height range test for each video bucket, as written in the else-if
chain; the audio bucket has no height test. -/
def inRange (b : Bucket) (h : Nat) : Bool :=
  match b with
  | .b1080 => h ≥ 1080
  | .b720 => h ≥ 720 && h < 1080
  | .b480 => h ≥ 480 && h < 720
  | .b360 => h ≥ 360 && h < 480
  | .baudio => false

/-- Qualification of a variant for a bucket, exactly as server.js tests it:
for video buckets, a video track and a height in range (no container
condition appears in the code); for the audio bucket, audio and no video. -/
def qualifies (b : Bucket) (f : Format) : Bool :=
  match b with
  | .baudio => f.hasAudio && !f.hasVideo
  | _ => f.hasVideo && inRange b (parsedHeight f)

/-- Modelled from the spec: presentational byte formatting supplied by the
external pretty-bytes npm library; spec section 4.1 says size formatting is
informational only and carries no contract, so its exact text is irrelevant. -/
def prettyBytes (n : Nat) : String := toString n ++ " B"

/-- Size column of a menu entry:
`f.contentLength ? pretty(+f.contentLength) : "—"` (server.js line 152). -/
def sizeDisplay (len : Option Nat) : String :=
  match len with
  | some n => prettyBytes n
  | none => "—"

/-- One element of the /info response's `formats` array (server.js
lines 148-153). -/
structure MenuEntry where
  itag : Nat
  label : String
  ext : String
  sizeMB : String
deriving DecidableEq, Repr

/-- The `Object.entries(picks)` traversal order: JS object literals preserve
declaration order for string keys, so the five buckets are visited in the
order they are declared (server.js lines 126-132, 146). -/
def bucketEntries (p : Picks) : List (String × Option Format) :=
  [("1080p", p.p1080), ("720p", p.p720), ("480p", p.p480), ("360p", p.p360),
   ("audio", p.audio)]

def menuEntry (k : String) (f : Format) : MenuEntry :=
  { itag := f.itag,
    label := if k = "audio" then "Audio only" else k,
    ext := f.container.toUpper,
    sizeMB := sizeDisplay f.contentLength }

/-- The `.filter(([, f]) => f).map(...)` chain (server.js lines 146-153):
empty buckets are dropped, filled ones are projected to menu entries. -/
def buildFormats (p : Picks) : List MenuEntry :=
  (bucketEntries p).filterMap fun e => e.2.map (menuEntry e.1)

inductive InfoResult where
  | err (status : Nat) (msg : String)
  | ok (title : String) (menu : List MenuEntry)
deriving DecidableEq, Repr

/-- The catalog-building tail of the /info handler (server.js lines 146-159):
404 when the menu came out empty, the payload otherwise. -/
def infoCatalog (title : String) (formats : List Format) : InfoResult :=
  let menu := buildFormats (buildPicks formats)
  if menu.isEmpty then .err 404 "No suitable formats found" else .ok title menu

/-- Modelled from the spec: the accepted video-container configuration the
spec gives as its example in section 4.1 (container acceptance lists are a
caller-supplied configuration there). -/
def acceptedVideoContainers : List String := ["mp4", "webm"]

/-- Modelled from the spec: the qualification predicate exactly as the spec
words it, for the refinement comparison against `qualifies` (which is what
server.js actually tests).  The spec adds a container-acceptance condition
for video buckets that the code does not have. -/
def qualifiesSpec (b : Bucket) (f : Format) : Bool :=
  match b with
  | .baudio => f.hasAudio && !f.hasVideo
  | _ => f.hasVideo && inRange b (parsedHeight f)
          && acceptedVideoContainers.contains f.container

/-- A 1080p video-only variant in a 3gpp container: not in the spec's
accepted video-container set. -/
def v3gp : Format :=
  { itag := 36, container := "3gpp", hasVideo := true, hasAudio := false,
    height := some 1080, qualityLabel := some "1080p", contentLength := none,
    audioBitrate := none }

/-- A labelled variant with no digits anywhere: sample input for the height
parse. -/
def fNoHeight : Format :=
  { itag := 99, container := "mp4", hasVideo := true, hasAudio := false,
    height := none, qualityLabel := some "HD", contentLength := none,
    audioBitrate := none }

/-- Modelled from the spec: the external metadata layer's
highest-audio-quality fallback, `ytdl.chooseFormat(info.formats,
{ quality: "highestaudio", filter: "audioonly" })` (server.js lines
205-209).  ytdl-core is an external collaborator, so this follows the
spec's words: among audio-only variants pick the one of highest audio
quality; when none exists ytdl throws, which the handler's catch turns into
an HTTP 500 — modelled as `none` here. -/
def chooseHighestAudio (formats : List Format) : Option Format :=
  (formats.filter fun f => f.hasAudio && !f.hasVideo).foldl
    (fun best f =>
      match best with
      | none => some f
      | some b => if f.audioBitrate.getD 0 > b.audioBitrate.getD 0 then some f else best)
    none

inductive PlanResult where
  | notFound
  | direct (v : Format)
  | merge (v a : Format)
  | noAudio (v : Format)
deriving DecidableEq, Repr

/-- The decision logic of the /download handler (server.js lines 189-219):
404 when the itag matches nothing; a direct pipe when the chosen variant
has audio in an mp4 container; otherwise merge with the first variant that
has audio and no video (no container condition appears in the code),
falling back to the metadata layer's highest-audio choice.  `noAudio`
models ytdl.chooseFormat finding nothing and throwing, caught as HTTP 500
"Download failed". -/
def planDownload (formats : List Format) (itag : Nat) : PlanResult :=
  match formats.find? fun f => f.itag == itag with
  | none => .notFound
  | some videoF =>
    if videoF.hasAudio && videoF.container == "mp4" then .direct videoF
    else
      match formats.find? fun f => f.hasAudio && !f.hasVideo with
      | some audioF => .merge videoF audioF
      | none =>
        match chooseHighestAudio formats with
        | some audioF => .merge videoF audioF
        | none => .noAudio videoF

/-- A muxed 720p mp4 variant: sample input for the direct plan. -/
def muxedMp4 : Format :=
  { itag := 22, container := "mp4", hasVideo := true, hasAudio := true,
    height := some 720, qualityLabel := some "720p", contentLength := some 1000,
    audioBitrate := some 128 }

/-- Modelled from the spec: the accepted audio-container configuration the
spec gives as its example in section 4.1. -/
def acceptedAudioContainers : List String := ["m4a", "mp4", "webm"]

/-- Modelled from the spec: the audio-counterpart priority exactly as the
spec words it, for the refinement comparison — first audio-only variant in
an accepted audio container, then the metadata layer's highest-audio
fallback. -/
def specAudioChoice (formats : List Format) : Option Format :=
  match formats.find? fun f =>
      f.hasAudio && !f.hasVideo && acceptedAudioContainers.contains f.container with
  | some a => some a
  | none => chooseHighestAudio formats

/-- A 1080p video-only mp4 variant. -/
def videoOnly1080 : Format :=
  { itag := 137, container := "mp4", hasVideo := true, hasAudio := false,
    height := some 1080, qualityLabel := some "1080p", contentLength := none,
    audioBitrate := none }

/-- An audio-only variant in an ogg container — outside the spec's accepted
audio-container set. -/
def audioOgg : Format :=
  { itag := 600, container := "ogg", hasVideo := false, hasAudio := true,
    height := none, qualityLabel := none, contentLength := none,
    audioBitrate := some 48 }

/-- An audio-only m4a variant — inside the spec's accepted set. -/
def audioM4a : Format :=
  { itag := 140, container := "m4a", hasVideo := false, hasAudio := true,
    height := none, qualityLabel := none, contentLength := none,
    audioBitrate := some 128 }

/-- JS `String.prototype.startsWith`: character-list prefix test (the
containers here are ASCII). -/
def jsStartsWith (s pre : String) : Bool := pre.data.isPrefixOf s.data

/-- The ffmpeg invocation's codec and container settings. -/
structure MuxSettings where
  videoCodec : String
  audioCodec : String
  audioBitrate : String
  movflags : String
  outFormat : String
deriving DecidableEq, Repr

/-- The fluent-ffmpeg chain of the Merge path: `.videoCodec("copy")`,
`.audioCodec(audioF.container.startsWith("webm") ? "aac" : "copy")`,
`.audioBitrate("192k")`, `-movflags frag_keyframe+empty_moov`,
`.format("mp4")` (server.js lines 221-228).  The code infers audio-codec
compatibility from the container family: a webm-prefixed container carries
opus or vorbis audio, which mp4 delivery cannot stream-copy. -/
def muxFor (audioF : Format) : MuxSettings :=
  { videoCodec := "copy",
    audioCodec := if jsStartsWith audioF.container "webm" then "aac" else "copy",
    audioBitrate := "192k",
    movflags := "frag_keyframe+empty_moov",
    outFormat := "mp4" }

/-- An opus audio-only webm variant, as in the spec's Scenario D. -/
def webmOpusAudio : Format :=
  { itag := 251, container := "webm", hasVideo := false, hasAudio := true,
    height := none, qualityLabel := none, contentLength := none,
    audioBitrate := some 160 }

/-- What a Merge request leaves behind on each terminal event. -/
structure MergeExit where
  vTmpDeleted : Bool
  aTmpDeleted : Bool
  responseEnded : Bool
deriving DecidableEq, Repr

/-- The terminal events a Merge download can end with. -/
inductive MuxEvent where
  | ended
  | errored
  | clientDisconnected
deriving DecidableEq, Repr

/-- The event wiring of the ffmpeg pipeline in the Merge path (server.js
lines 229-237): `.on("end", ...)` unlinks both temp files and the pipe
with `end: true` closes the response; `.on("error", ...)` only logs and
calls `res.end()` — no unlink appears in that handler; no handler at all
is registered for a client disconnect (no `res.on("close", ...)` or
`req.on("aborted", ...)` exists in the file), so nothing runs then. -/
def mergeExitEffects : MuxEvent → MergeExit
  | .ended => { vTmpDeleted := true, aTmpDeleted := true, responseEnded := true }
  | .errored => { vTmpDeleted := false, aTmpDeleted := false, responseEnded := true }
  | .clientDisconnected =>
    { vTmpDeleted := false, aTmpDeleted := false, responseEnded := false }

def WINDOW_MS : Int := 60000

def MAX_REQS_WINDOW : Nat := 10

/-- The `tooMany` function (server.js lines 51-58): filter the stored
timestamps down to the last window; at or above the threshold, reject
without touching the store; otherwise record the current time.  Returns
the decision and the stored list after the call. -/
def tooMany (now : Int) (prev : List Int) : Bool × List Int :=
  let hits := prev.filter fun t => now - t < WINDOW_MS
  if hits.length ≥ MAX_REQS_WINDOW then (true, prev)
  else (false, hits ++ [now])

inductive GateDecision where
  | rejected (status : Nat) (msg : String)
  | proceed
deriving DecidableEq, Repr

/-- The rate-limit gate at the top of the /info and /download handlers
(server.js lines 110-111 and 177-178): a tooMany verdict becomes an HTTP
429 before anything else runs. -/
def rateGate (now : Int) (prev : List Int) : GateDecision × List Int :=
  let r := tooMany now prev
  if r.1 then (.rejected 429 "Too many requests; slow down.", r.2)
  else (.proceed, r.2)

-- sanity checks on concrete data
example : parsedHeight ⟨137, "mp4", true, false, some 1080, some "1080p", none, none⟩ = 1080 := by decide
example : parsedHeight ⟨137, "mp4", true, false, none, some "hd720", none, none⟩ = 720 := by decide
example : parsedHeight ⟨137, "mp4", true, false, some 0, some "480p", none, none⟩ = 480 := by decide
example : parsedHeight ⟨137, "mp4", true, false, none, some "HD", none, none⟩ = 0 := by decide
example :
    getBucket (buildPicks [⟨137, "mp4", true, false, some 1080, none, none, none⟩]) .b1080 =
      some ⟨137, "mp4", true, false, some 1080, none, none, none⟩ := by decide

lemma videoStep_p1080 (p : Picks) (f : Format) :
    (videoStep p f).p1080 =
      if decide (parsedHeight f ≥ 1080) && p.p1080.isNone then some f else p.p1080 := by
  simp only [videoStep]
  split_ifs with h1 h2 h3 h4 <;> simp_all

lemma videoStep_p720 (p : Picks) (f : Format) :
    (videoStep p f).p720 =
      if (decide (parsedHeight f ≥ 720) && decide (parsedHeight f < 1080)) && p.p720.isNone
      then some f else p.p720 := by
  simp only [videoStep]
  split_ifs with h1 h2 h3 h4 <;> simp_all <;> omega

lemma videoStep_p480 (p : Picks) (f : Format) :
    (videoStep p f).p480 =
      if (decide (parsedHeight f ≥ 480) && decide (parsedHeight f < 720)) && p.p480.isNone
      then some f else p.p480 := by
  simp only [videoStep]
  split_ifs with h1 h2 h3 h4 <;> simp_all <;> omega

lemma videoStep_p360 (p : Picks) (f : Format) :
    (videoStep p f).p360 =
      if (decide (parsedHeight f ≥ 360) && decide (parsedHeight f < 480)) && p.p360.isNone
      then some f else p.p360 := by
  simp only [videoStep]
  split_ifs with h1 h2 h3 h4 <;> simp_all <;> omega

lemma videoStep_audio (p : Picks) (f : Format) :
    (videoStep p f).audio = p.audio := by
  simp only [videoStep]
  split_ifs <;> rfl

/-- One loop iteration fills bucket `b` exactly when `b` is still empty and
the variant qualifies for it; otherwise the bucket is untouched. -/
lemma pickStep_getBucket (p : Picks) (f : Format) (b : Bucket) :
    getBucket (pickStep p f) b =
      if qualifies b f && (getBucket p b).isNone then some f else getBucket p b := by
  cases b <;>
    simp only [pickStep, qualifies, inRange, getBucket] <;>
    cases hv : f.hasVideo <;>
    cases ha : f.hasAudio <;>
    simp [hv, ha, videoStep_p1080, videoStep_p720, videoStep_p480, videoStep_p360,
      videoStep_audio, Bool.and_assoc, Bool.and_comm, Bool.and_left_comm] <;>
    (try (split <;> rfl))

/-- Folding the loop over a list resolves each bucket to the first
qualifying variant, unless the accumulator already holds one. -/
lemma foldl_getBucket (l : List Format) (p : Picks) (b : Bucket) :
    getBucket (l.foldl pickStep p) b =
      match getBucket p b with
      | some g => some g
      | none => l.find? (qualifies b) := by
  induction l generalizing p with
  | nil => cases hb : getBucket p b <;> simp [hb]
  | cons f l ih =>
    simp only [List.foldl_cons, ih, pickStep_getBucket]
    cases hb : getBucket p b <;>
      cases hq : qualifies b f <;>
      simp [hb, hq, List.find?_cons]

lemma getBucket_emptyPicks (b : Bucket) : getBucket emptyPicks b = none := by
  cases b <;> rfl

lemma getBucket_buildPicks (l : List Format) (b : Bucket) :
    getBucket (buildPicks l) b = l.find? (qualifies b) := by
  simp [buildPicks, foldl_getBucket, getBucket_emptyPicks]

/-- C1: Bucket filling is first-match-wins in source order: for every list
of StreamVariants and every bucket, the variant kept for that bucket is the
first variant in the input list that qualifies for it (under the
qualification test server.js actually performs), and every later qualifying
variant for an already-filled bucket is ignored, regardless of declared
size or resolution value within the same bucket range — `List.find?`
semantics exactly. -/
theorem catalog_first_match_wins (l : List Format) (b : Bucket) :
    getBucket (buildPicks l) b = l.find? (qualifies b) := by
  simp [buildPicks, foldl_getBucket, getBucket_emptyPicks]

lemma forall_bucket (P : Bucket → Prop) :
    (∀ b, P b) ↔ P .b1080 ∧ P .b720 ∧ P .b480 ∧ P .b360 ∧ P .baudio :=
  ⟨fun h => ⟨h _, h _, h _, h _, h _⟩,
   fun ⟨h1, h2, h3, h4, h5⟩ b => by cases b <;> assumption⟩

lemma buildFormats_eq_nil_iff (p : Picks) :
    buildFormats p = [] ↔ ∀ b, getBucket p b = none := by
  rcases p with ⟨o1, o2, o3, o4, o5⟩
  rw [forall_bucket]
  cases o1 <;> cases o2 <;> cases o3 <;> cases o4 <;> cases o5 <;>
    simp [buildFormats, bucketEntries, getBucket]

/-- C8: For every StreamVariant set, the Catalog Builder produces at most
one FormatMenuEntry per bucket label, and the menu's labels appear in the
fixed bucket order 1080p, 720p, 480p, 360p, audio (the audio bucket is
displayed as "Audio only"): the label list is a duplicate-free sublist of
the fixed order. -/
theorem menu_labels_fixed_order (l : List Format) :
    ((buildFormats (buildPicks l)).map MenuEntry.label).Sublist
        ["1080p", "720p", "480p", "360p", "Audio only"]
    ∧ ((buildFormats (buildPicks l)).map MenuEntry.label).Nodup := by
  rcases buildPicks l with ⟨o1, o2, o3, o4, o5⟩
  cases o1 <;> cases o2 <;> cases o3 <;> cases o4 <;> cases o5 <;>
    refine ⟨?_, ?_⟩ <;>
    simp [buildFormats, bucketEntries, menuEntry] <;>
    decide

/-- C6: The /info operation fails with the NoSuitableFormats signal
(HTTP 404, "No suitable formats found") exactly when every bucket is left
empty; an individual unfilled bucket is merely omitted from the menu by the
filter, not an error. -/
theorem info_no_suitable_formats_iff (title : String) (l : List Format) :
    infoCatalog title l = .err 404 "No suitable formats found" ↔
      ∀ b, getBucket (buildPicks l) b = none := by
  rw [← buildFormats_eq_nil_iff]
  unfold infoCatalog
  by_cases hm : buildFormats (buildPicks l) = [] <;>
    simp [hm, List.isEmpty_iff]

/-- Witness for C6 at the empty variant list: the Catalog Builder rejects
it with the 404 signal. -/
theorem info_no_suitable_formats_witness :
    infoCatalog "title" [] = .err 404 "No suitable formats found" :=
  (info_no_suitable_formats_iff "title" []).mpr fun b => by cases b <;> rfl

/-- C2 counterexample: server.js fills the 1080p bucket with a variant
whose container is outside the spec's accepted video-container set, so
container acceptance is not part of the code's qualification test and the
claimed if-and-only-if fails. -/
theorem catalog_container_counterexample :
    getBucket (buildPicks [v3gp]) Bucket.b1080 = some v3gp
      ∧ qualifiesSpec Bucket.b1080 v3gp = false := by decide

/-- C2 amended: a variant qualifies for a video bucket if and only if it
carries a video track and its resolution (numeric height taking precedence
over the resolution label when both are present and the height is not the
JS-falsy 0) falls in that bucket's range; no container condition is
applied.  The audio bucket takes a variant if and only if it has audio and
no video. -/
theorem catalog_qualification_amended (l : List Format) :
    (∀ b, b ≠ Bucket.baudio →
        getBucket (buildPicks l) b =
          l.find? fun f => f.hasVideo && inRange b (parsedHeight f))
    ∧ getBucket (buildPicks l) Bucket.baudio =
        (l.find? fun f => f.hasAudio && !f.hasVideo)
    ∧ ∀ f h, f.height = some h → h ≠ 0 → parsedHeight f = h := by
  refine ⟨fun b hb => ?_, ?_, fun f h hf h0 => ?_⟩
  · cases b <;> simp only [getBucket_buildPicks] <;>
      first
      | rfl
      | exact absurd rfl hb
  · simp only [getBucket_buildPicks]
    rfl
  · unfold parsedHeight
    rw [hf]
    simp [h0]

/-- Witness for C2's amended theorem at a concrete variant list and
bucket. -/
theorem catalog_qualification_amended_witness :
    getBucket (buildPicks [v3gp]) Bucket.b1080 =
      [v3gp].find? fun f => f.hasVideo && inRange Bucket.b1080 (parsedHeight f) :=
  (catalog_qualification_amended [v3gp]).1 Bucket.b1080 (by decide)

lemma firstDigitRun_eq_none (cs : List Char) (h : ∀ c ∈ cs, c.isDigit = false) :
    firstDigitRun cs = none := by
  induction cs with
  | nil => rfl
  | cons c rest ih =>
    simp only [firstDigitRun]
    rw [if_neg (by simp [h c (List.mem_cons_self c rest)])]
    exact ih fun x hx => h x (List.mem_cons_of_mem _ hx)

/-- C9: a variant with a video track but neither a (truthy) numeric height
nor any digit in its quality label parses to height 0, qualifies for no
video bucket, and leaves the video buckets of the accumulator untouched;
the height parse is total, so the catalog computation never fails on it. -/
theorem heightless_variant_fills_no_video_bucket (f : Format)
    (hh : f.height = none ∨ f.height = some 0)
    (hd : ∀ c ∈ (f.qualityLabel.getD "").toList, c.isDigit = false) :
    parsedHeight f = 0
    ∧ (∀ b, b ≠ Bucket.baudio → qualifies b f = false)
    ∧ ∀ p, videoStep p f = p := by
  have hl : labelHeight f.qualityLabel = 0 := by
    unfold labelHeight
    rw [firstDigitRun_eq_none _ hd]
  have h0 : parsedHeight f = 0 := by
    unfold parsedHeight
    rcases hh with hh | hh <;> rw [hh] <;> simp [hl]
  refine ⟨h0, fun b hb => ?_, fun p => ?_⟩
  · cases b <;> simp [qualifies, inRange, h0] at hb ⊢
  · simp [videoStep, h0]

/-- Witness for C9 on a concrete digit-free variant. -/
theorem heightless_variant_witness :
    parsedHeight fNoHeight = 0 ∧ qualifies Bucket.b1080 fNoHeight = false :=
  ⟨(heightless_variant_fills_no_video_bucket fNoHeight (Or.inl rfl) (by decide)).1,
   (heightless_variant_fills_no_video_bucket fNoHeight (Or.inl rfl) (by decide)).2.1
     Bucket.b1080 (by decide)⟩

/-- C3: for every selected variant that already carries both video and
audio in the container the mp4 target output accepts natively, the
Transfer Planner returns Direct — the stream is piped through without temp
files or remux. -/
theorem direct_plan_for_muxed_mp4 (formats : List Format) (itag : Nat) (v : Format)
    (hfind : formats.find? (fun f => f.itag == itag) = some v)
    (hvid : v.hasVideo = true) (haud : v.hasAudio = true)
    (hcont : v.container = "mp4") :
    planDownload formats itag = .direct v := by
  unfold planDownload
  rw [hfind]
  simp [haud, hcont]

/-- Witness for C3 on a concrete muxed mp4 variant. -/
theorem direct_plan_witness : planDownload [muxedMp4] 22 = .direct muxedMp4 :=
  direct_plan_for_muxed_mp4 [muxedMp4] 22 muxedMp4 (by decide) rfl rfl rfl

/-- C4 counterexample: with an ogg audio-only variant ahead of an m4a one,
server.js merges with the ogg variant (its find has no container
condition), while the claimed priority would select the m4a variant; the
claim as stated fails. -/
theorem merge_audio_container_counterexample :
    planDownload [videoOnly1080, audioOgg, audioM4a] 137 =
        .merge videoOnly1080 audioOgg
      ∧ specAudioChoice [videoOnly1080, audioOgg, audioM4a] = some audioM4a
      ∧ audioOgg ≠ audioM4a := by decide

lemma chooseHighestAudio_eq_none (formats : List Format)
    (h : formats.find? (fun f => f.hasAudio && !f.hasVideo) = none) :
    chooseHighestAudio formats = none := by
  unfold chooseHighestAudio
  have hf : formats.filter (fun f => f.hasAudio && !f.hasVideo) = [] := by
    rw [List.filter_eq_nil_iff]
    intro a ha
    have := List.find?_eq_none.mp h a ha
    simpa using this
  rw [hf]
  rfl

/-- C4 amended: when the plan is Merge, the audio counterpart is the first
variant in source order with audio-but-no-video, with no container
restriction; the metadata layer's highest-audio fallback is consulted only
when no audio-only variant exists, in which case it also finds none, so
the operation fails (surfaced by the handler as a generic HTTP 500
download failure) exactly when no audio-only variant exists. -/
theorem merge_audio_first_match (formats : List Format) (itag : Nat) (v : Format)
    (hfind : formats.find? (fun f => f.itag == itag) = some v)
    (hnd : (v.hasAudio && v.container == "mp4") = false) :
    (∀ a, formats.find? (fun f => f.hasAudio && !f.hasVideo) = some a →
        planDownload formats itag = .merge v a)
    ∧ (formats.find? (fun f => f.hasAudio && !f.hasVideo) = none →
        planDownload formats itag = .noAudio v) := by
  constructor
  · intro a ha
    unfold planDownload
    rw [hfind]
    dsimp only
    rw [if_neg (by simp [hnd]), ha]
  · intro hn
    unfold planDownload
    rw [hfind]
    dsimp only
    rw [if_neg (by simp [hnd]), hn, chooseHighestAudio_eq_none formats hn]

/-- Witness for C4's amended theorem on a concrete variant list. -/
theorem merge_audio_first_match_witness :
    planDownload [videoOnly1080, audioM4a] 137 = .merge videoOnly1080 audioM4a :=
  (merge_audio_first_match [videoOnly1080, audioM4a] 137 videoOnly1080
      (by decide) (by decide)).1 audioM4a (by decide)

/-- C5: the video track is always stream-copied, never re-encoded; the
audio track is stream-copied exactly when its container family (the code's
codec compatibility test) is not webm, and otherwise transcoded to aac —
the mp4 target's delivery codec — at the fixed 192k bitrate. -/
theorem remux_codec_policy (a : Format) :
    (muxFor a).videoCodec = "copy"
    ∧ ((muxFor a).audioCodec = "copy" ↔ jsStartsWith a.container "webm" = false)
    ∧ (jsStartsWith a.container "webm" = true →
        (muxFor a).audioCodec = "aac" ∧ (muxFor a).audioBitrate = "192k") := by
  unfold muxFor
  by_cases h : jsStartsWith a.container "webm" <;> simp [h]

/-- Witness for C5: on a webm opus audio track the video is stream-copied
and the audio transcoded to aac at 192k. -/
theorem remux_codec_policy_witness :
    (muxFor webmOpusAudio).videoCodec = "copy"
      ∧ (muxFor webmOpusAudio).audioCodec = "aac"
      ∧ (muxFor webmOpusAudio).audioBitrate = "192k" :=
  ⟨(remux_codec_policy webmOpusAudio).1,
   ((remux_codec_policy webmOpusAudio).2.2 (by decide)).1,
   ((remux_codec_policy webmOpusAudio).2.2 (by decide)).2⟩

/-- C7 evaluation: cleanup only happens after the terminal end event; on a
remux failure the response is ended but both temp files are leaked, and on
a client disconnect nothing is cleaned up — contradicting the claimed
every-exit-path guarantee. -/
theorem merge_cleanup_only_on_success :
    (mergeExitEffects .ended).vTmpDeleted = true
    ∧ (mergeExitEffects .ended).aTmpDeleted = true
    ∧ (mergeExitEffects .errored).responseEnded = true
    ∧ (mergeExitEffects .errored).vTmpDeleted = false
    ∧ (mergeExitEffects .errored).aTmpDeleted = false
    ∧ (mergeExitEffects .clientDisconnected).vTmpDeleted = false
    ∧ (mergeExitEffects .clientDisconnected).aTmpDeleted = false := by decide

/-- C10: a request is rejected with HTTP 429 exactly when 10 or more
requests from that IP were recorded within the preceding 60 seconds, and a
rejected request leaves the recorded timestamps unchanged, so being
rejected never extends the block. -/
theorem rate_limit_429_iff (now : Int) (prev : List Int) :
    ((rateGate now prev).1 = .rejected 429 "Too many requests; slow down." ↔
      10 ≤ (prev.filter fun t => now - t < 60000).length)
    ∧ (10 ≤ (prev.filter fun t => now - t < 60000).length →
        (rateGate now prev).2 = prev) := by
  unfold rateGate tooMany WINDOW_MS MAX_REQS_WINDOW
  by_cases h : 10 ≤ (prev.filter fun t => now - t < 60000).length <;> simp [h]

/-- Witness for C10: ten recorded timestamps inside the window reject the
next request and leave the store unchanged. -/
theorem rate_limit_429_witness :
    (rateGate 1 (List.replicate 10 0)).1 =
        .rejected 429 "Too many requests; slow down."
      ∧ (rateGate 1 (List.replicate 10 0)).2 = List.replicate 10 0 :=
  ⟨(rate_limit_429_iff 1 (List.replicate 10 0)).1.mpr (by decide),
   (rate_limit_429_iff 1 (List.replicate 10 0)).2 (by decide)⟩
